import Mathlib

/-!
Verification development for the sepsis-risk dashboard repository.

The embedded code is the Risk Scoring Engine:
* `predictWithUncertainty`, `checkThresholds`, `analyzePatient`,
  `updateThresholds`, `getThresholds` from `src/utils/enhancedMLModel.ts`
  (class `EnhancedSepsisMLModel`);
* the row normalizer (the timeline-building effect of the `App` component).

Numbers are modelled by `ℚ` (exact arithmetic standing for JS doubles; none of
the constants involved exercise binary-float rounding).  A field that may be
`undefined`/`null` is an `Option ℚ`; in the normalizer, where every produced
field is a JS number that may be `NaN`, the value `none` stands for `NaN`.
`Math.random()` is threaded as an explicit `rand : ℚ` parameter.
-/

/-- Risk level enumeration `'LOW' | 'MODERATE' | 'HIGH' | 'CRITICAL' | 'UNCERTAIN'`. -/
inductive RiskLevel where
  | LOW
  | MODERATE
  | HIGH
  | CRITICAL
  | UNCERTAIN
deriving DecidableEq, Repr

/-- Violation severity `'warning' | 'critical'`. -/
inductive Severity where
  | warning
  | critical
deriving DecidableEq, Repr

/-- One threshold violation entry as pushed by `checkThresholds`. -/
structure Violation where
  parameter : String
  value : ℚ
  threshold : ℚ
  severity : Severity
deriving DecidableEq, Repr

/-- Entry of `ThresholdSettings`: `{min?, max?, critical?, enabled}`. -/
structure ThresholdConfig where
  min : Option ℚ
  max : Option ℚ
  critical : Option ℚ
  enabled : Bool
deriving DecidableEq, Repr

/-- The vitals object as read by the model code (`patientData.vitals`).
Each field is `Option ℚ`: `none` models an `undefined`/`null` entry. -/
structure Vitals where
  HR : Option ℚ := none
  O2Sat : Option ℚ := none
  Temp : Option ℚ := none
  SBP : Option ℚ := none
  MAP : Option ℚ := none
  DBP : Option ℚ := none
  Resp : Option ℚ := none
  EtCO2 : Option ℚ := none
deriving DecidableEq, Repr

/-- The labs object as read by the model code (`patientData.labs`). -/
structure Labs where
  BaseExcess : Option ℚ := none
  HCO3 : Option ℚ := none
  FiO2 : Option ℚ := none
  pH : Option ℚ := none
  PaCO2 : Option ℚ := none
  SaO2 : Option ℚ := none
  AST : Option ℚ := none
  BUN : Option ℚ := none
  Alkalinephos : Option ℚ := none
  Calcium : Option ℚ := none
  Chloride : Option ℚ := none
  Creatinine : Option ℚ := none
  Bilirubin_direct : Option ℚ := none
  Glucose : Option ℚ := none
  Lactate : Option ℚ := none
  Magnesium : Option ℚ := none
  Phosphate : Option ℚ := none
  Potassium : Option ℚ := none
  Bilirubin_total : Option ℚ := none
  TroponinI : Option ℚ := none
  Hct : Option ℚ := none
  Hgb : Option ℚ := none
  PTT : Option ℚ := none
  WBC : Option ℚ := none
  Fibrinogen : Option ℚ := none
  Platelets : Option ℚ := none
deriving DecidableEq, Repr

/-- The fields of a patient record that `predictWithUncertainty`,
`checkThresholds` and the report generators read.  The TS methods take
`patientData: any` and guard every access, so `vitals`/`labs` themselves and
every numeric field may be `undefined` (modelled by `none`). -/
structure PatientData where
  Age : Option ℚ := none
  ICULOS : Option ℚ := none
  vitals : Option Vitals := none
  labs : Option Labs := none
deriving DecidableEq, Repr

/-- `patientData.vitals?.f` for a vitals field selector `f`. -/
def getVital (pd : PatientData) (f : Vitals → Option ℚ) : Option ℚ :=
  pd.vitals.bind f

/-- `patientData.labs?.f` for a labs field selector `f`. -/
def getLab (pd : PatientData) (f : Labs → Option ℚ) : Option ℚ :=
  pd.labs.bind f

/-- JS comparison `v > c` on a possibly-undefined left operand:
`undefined > c` is `false`. -/
def jsGt (v : Option ℚ) (c : ℚ) : Bool :=
  match v with
  | some q => decide (c < q)
  | none => false

/-- JS comparison `v < c` on a possibly-undefined left operand:
`undefined < c` is `false`. -/
def jsLt (v : Option ℚ) (c : ℚ) : Bool :=
  match v with
  | some q => decide (q < c)
  | none => false

/-- The scorer's mutable locals: `riskScore`, `confidence`,
`uncertaintyPenalty`, `sirsCount`, `dataCompleteness`, `totalChecks`. -/
structure Locals where
  riskScore : ℚ
  confidence : ℚ
  uncertaintyPenalty : ℚ
  sirsCount : ℕ
  dataCompleteness : ℕ
  totalChecks : ℕ
deriving DecidableEq, Repr

/-- Initial locals: `riskScore = 0`, `confidence = 0.85`, all counters `0`. -/
def initLocals : Locals :=
  { riskScore := 0, confidence := 0.85, uncertaintyPenalty := 0,
    sirsCount := 0, dataCompleteness := 0, totalChecks := 0 }

/-- Temperature block of `predictWithUncertainty`. -/
def tempStep (t : Option ℚ) (a : Locals) : Locals :=
  match t with
  | some v =>
      { a with
        totalChecks := a.totalChecks + 1
        dataCompleteness := a.dataCompleteness + 1
        sirsCount := if v > 38 ∨ v < 36 then a.sirsCount + 1 else a.sirsCount
        riskScore := a.riskScore + (if v > 38 ∨ v < 36 then 0.18 else 0)
          + (if v > 39 ∨ v < 35 then 0.12 else 0) }
  | none => { a with uncertaintyPenalty := a.uncertaintyPenalty + 0.06 }

/-- Heart-rate block of `predictWithUncertainty`. -/
def hrStep (t : Option ℚ) (a : Locals) : Locals :=
  match t with
  | some v =>
      { a with
        totalChecks := a.totalChecks + 1
        dataCompleteness := a.dataCompleteness + 1
        sirsCount := if v > 90 then a.sirsCount + 1 else a.sirsCount
        riskScore := a.riskScore + (if v > 90 then 0.15 else 0)
          + (if v > 120 then 0.10 else 0) + (if v > 140 then 0.06 else 0) }
  | none => { a with uncertaintyPenalty := a.uncertaintyPenalty + 0.06 }

/-- Respiratory-rate block of `predictWithUncertainty`. -/
def respStep (t : Option ℚ) (a : Locals) : Locals :=
  match t with
  | some v =>
      { a with
        totalChecks := a.totalChecks + 1
        dataCompleteness := a.dataCompleteness + 1
        sirsCount := if v > 20 then a.sirsCount + 1 else a.sirsCount
        riskScore := a.riskScore + (if v > 20 then 0.12 else 0)
          + (if v > 25 then 0.08 else 0) }
  | none => { a with uncertaintyPenalty := a.uncertaintyPenalty + 0.05 }

/-- WBC block of `predictWithUncertainty`. -/
def wbcStep (t : Option ℚ) (a : Locals) : Locals :=
  match t with
  | some v =>
      { a with
        totalChecks := a.totalChecks + 1
        dataCompleteness := a.dataCompleteness + 1
        sirsCount := if v > 12 ∨ v < 4 then a.sirsCount + 1 else a.sirsCount
        riskScore := a.riskScore + (if v > 12 ∨ v < 4 then 0.20 else 0)
          + (if v > 15 ∨ v < 2 then 0.12 else 0) }
  | none => { a with uncertaintyPenalty := a.uncertaintyPenalty + 0.10 }

/-- MAP block of `predictWithUncertainty` (no penalty when absent). -/
def mapStep (t : Option ℚ) (a : Locals) : Locals :=
  match t with
  | some v =>
      { a with
        totalChecks := a.totalChecks + 1
        dataCompleteness := a.dataCompleteness + 1
        riskScore := a.riskScore +
          (if v < 65 then 0.25 else if v < 70 then 0.15 else 0) }
  | none => a

/-- Lactate block of `predictWithUncertainty` (also bumps confidence). -/
def lactateStep (t : Option ℚ) (a : Locals) : Locals :=
  match t with
  | some v =>
      { a with
        totalChecks := a.totalChecks + 1
        dataCompleteness := a.dataCompleteness + 1
        riskScore := a.riskScore +
          (if v > 4.0 then 0.35 else if v > 2.5 then 0.22
           else if v > 2.0 then 0.12 else 0)
        confidence := a.confidence +
          (if v > 4.0 then 0.06 else if v > 2.5 then 0.03 else 0) }
  | none => { a with uncertaintyPenalty := a.uncertaintyPenalty + 0.12 }

/-- The "additional enhanced markers" and "time-based risk factors" of
`predictWithUncertainty`: bare `?.` comparisons adding fixed weights. -/
def extraMarkers (pd : PatientData) (a : Locals) : Locals :=
  { a with riskScore := a.riskScore
      + (if jsGt (getLab pd Labs.Creatinine) 2.0 then 0.15 else 0)
      + (if jsGt (getLab pd Labs.Creatinine) 3.0 then 0.10 else 0)
      + (if jsLt (getLab pd Labs.Platelets) 100 then 0.18 else 0)
      + (if jsLt (getLab pd Labs.Platelets) 50 then 0.12 else 0)
      + (if jsLt (getVital pd Vitals.O2Sat) 90 then 0.20 else 0)
      + (if jsLt (getVital pd Vitals.O2Sat) 85 then 0.12 else 0)
      + (if jsLt (getLab pd Labs.pH) 7.30 then 0.15 else 0)
      + (if jsLt (getLab pd Labs.pH) 7.25 then 0.10 else 0)
      + (if jsGt pd.ICULOS 24 then 0.06 else 0)
      + (if jsGt pd.ICULOS 72 then 0.04 else 0)
      + (if jsGt pd.Age 65 then 0.05 else 0)
      + (if jsGt pd.Age 75 then 0.03 else 0) }

/-- The scorer's accumulation phase, in source order: Temp, HR, Resp, WBC,
MAP, Lactate, then the extra markers. -/
def scoreAcc (pd : PatientData) : Locals :=
  extraMarkers pd
    (lactateStep (getLab pd Labs.Lactate)
      (mapStep (getVital pd Vitals.MAP)
        (wbcStep (getLab pd Labs.WBC)
          (respStep (getVital pd Vitals.Resp)
            (hrStep (getVital pd Vitals.HR)
              (tempStep (getVital pd Vitals.Temp) initLocals))))))

/-- `completenessRatio = totalChecks > 0 ? dataCompleteness / totalChecks : 0`. -/
def completenessRatio (pd : PatientData) : ℚ :=
  let a := scoreAcc pd
  if a.totalChecks > 0 then (a.dataCompleteness : ℚ) / (a.totalChecks : ℚ) else 0

/-- Final confidence: penalty applied, scaled by completeness, clamped to
`[0.2, 0.95]`. -/
def finalConfidence (pd : PatientData) : ℚ :=
  let a := scoreAcc pd
  let c := a.confidence - a.uncertaintyPenalty * 0.7
  max 0.2 (min 0.95 (c * (0.7 + 0.3 * completenessRatio pd)))

/-- Final risk score: clamped to `[0,1]`, perturbed by
`(rand - 0.5) * 0.15` where `rand` models `Math.random()`, re-clamped. -/
def finalRiskScore (pd : PatientData) (rand : ℚ) : ℚ :=
  let a := scoreAcc pd
  let rs := max 0 (min 1 a.riskScore)
  let randomFactor := (rand - 0.5) * 0.15
  max 0 (min 1 (rs + randomFactor))

/-- The ordered classification at the end of `predictWithUncertainty`. -/
def classify (confidence ratio riskScore : ℚ) : RiskLevel :=
  if confidence < 0.5 ∨ ratio < 0.4 then .UNCERTAIN
  else if riskScore < 0.30 then .LOW
  else if riskScore < 0.55 then .MODERATE
  else if riskScore < 0.75 then .HIGH
  else .CRITICAL

/-- Result record of `predictWithUncertainty`. -/
structure Prediction where
  probability : ℚ
  confidence : ℚ
  riskLevel : RiskLevel
deriving DecidableEq, Repr

/-- `predictWithUncertainty(patientData)`, with `Math.random()` threaded as
the explicit argument `rand`. -/
def predictWithUncertainty (pd : PatientData) (rand : ℚ) : Prediction :=
  { probability := finalRiskScore pd rand
    confidence := finalConfidence pd
    riskLevel := classify (finalConfidence pd) (completenessRatio pd) (finalRiskScore pd rand) }

/-- Dynamic access `vitals[param]` by parameter name. -/
def vitalsGet (v : Vitals) (param : String) : Option ℚ :=
  if param = "HR" then v.HR
  else if param = "O2Sat" then v.O2Sat
  else if param = "Temp" then v.Temp
  else if param = "SBP" then v.SBP
  else if param = "MAP" then v.MAP
  else if param = "DBP" then v.DBP
  else if param = "Resp" then v.Resp
  else if param = "EtCO2" then v.EtCO2
  else none

/-- Dynamic access `labs[param]` by parameter name. -/
def labsGet (l : Labs) (param : String) : Option ℚ :=
  if param = "BaseExcess" then l.BaseExcess
  else if param = "HCO3" then l.HCO3
  else if param = "FiO2" then l.FiO2
  else if param = "pH" then l.pH
  else if param = "PaCO2" then l.PaCO2
  else if param = "SaO2" then l.SaO2
  else if param = "AST" then l.AST
  else if param = "BUN" then l.BUN
  else if param = "Alkalinephos" then l.Alkalinephos
  else if param = "Calcium" then l.Calcium
  else if param = "Chloride" then l.Chloride
  else if param = "Creatinine" then l.Creatinine
  else if param = "Bilirubin_direct" then l.Bilirubin_direct
  else if param = "Glucose" then l.Glucose
  else if param = "Lactate" then l.Lactate
  else if param = "Magnesium" then l.Magnesium
  else if param = "Phosphate" then l.Phosphate
  else if param = "Potassium" then l.Potassium
  else if param = "Bilirubin_total" then l.Bilirubin_total
  else if param = "TroponinI" then l.TroponinI
  else if param = "Hct" then l.Hct
  else if param = "Hgb" then l.Hgb
  else if param = "PTT" then l.PTT
  else if param = "WBC" then l.WBC
  else if param = "Fibrinogen" then l.Fibrinogen
  else if param = "Platelets" then l.Platelets
  else none

/-- Value resolution in `checkThresholds`: `patientData.vitals?.[param]`
first, falling back to `patientData.labs?.[param]`. -/
def lookupValue (pd : PatientData) (param : String) : Option ℚ :=
  match pd.vitals.bind (fun v => vitalsGet v param) with
  | some q => some q
  | none => pd.labs.bind (fun l => labsGet l param)

/-- The `param` names whose critical comparison points downwards
(`SBP`, `MAP`, `O2Sat`, `Platelets`). -/
def lowDirection (param : String) : Prop :=
  param = "SBP" ∨ param = "MAP" ∨ param = "O2Sat" ∨ param = "Platelets"

instance (param : String) : Decidable (lowDirection param) := by
  unfold lowDirection; infer_instance

/-- The "Check critical threshold" block of `checkThresholds` for one
parameter: below-bound for the four low-direction parameters, above-bound
for every other parameter. -/
def criticalViolations (param : String) (value : ℚ) (config : ThresholdConfig) :
    List Violation :=
  match config.critical with
  | none => []
  | some crit =>
    if lowDirection param ∧ value < crit then
      [{ parameter := param, value := value, threshold := crit, severity := .critical }]
    else if ¬ lowDirection param ∧ value > crit then
      [{ parameter := param, value := value, threshold := crit, severity := .critical }]
    else []

/-- The "Check normal range" block of `checkThresholds` for one parameter:
`min`/`max` comparisons producing `warning` entries. -/
def rangeViolations (param : String) (value : ℚ) (config : ThresholdConfig) :
    List Violation :=
  (match config.min with
   | some m => if value < m then
       [{ parameter := param, value := value, threshold := m, severity := .warning }]
     else []
   | none => []) ++
  (match config.max with
   | some m => if value > m then
       [{ parameter := param, value := value, threshold := m, severity := .warning }]
     else []
   | none => [])

/-- One loop iteration of `checkThresholds`: skip when disabled or when the
value is absent, otherwise the critical check followed by the range checks. -/
def paramViolations (pd : PatientData) (param : String) (config : ThresholdConfig) :
    List Violation :=
  if config.enabled = false then []
  else
    match lookupValue pd param with
    | none => []
    | some value => criticalViolations param value config ++ rangeViolations param value config

/-- `checkThresholds(patientData)` over an explicit threshold configuration,
iterating the configured parameters in object-insertion order. -/
def checkThresholds (thresholds : List (String × ThresholdConfig)) (pd : PatientData) :
    List Violation :=
  thresholds.flatMap (fun pc => paramViolations pd pc.1 pc.2)

/-- The default threshold settings installed by the model constructor
(`initializeDefaultThresholds`), in source order. -/
def defaultThresholds : List (String × ThresholdConfig) :=
  [("HR", { min := some 60, max := some 100, critical := some 120, enabled := true }),
   ("Temp", { min := some 36.1, max := some 37.2, critical := some 38.5, enabled := true }),
   ("SBP", { min := some 90, max := some 140, critical := some 80, enabled := true }),
   ("Resp", { min := some 12, max := some 20, critical := some 25, enabled := true }),
   ("O2Sat", { min := some 95, max := some 100, critical := some 90, enabled := true }),
   ("WBC", { min := some 4.0, max := some 12.0, critical := some 15.0, enabled := true }),
   ("Lactate", { min := some 0.5, max := some 2.2, critical := some 4.0, enabled := true }),
   ("Creatinine", { min := some 0.7, max := some 1.3, critical := some 2.0, enabled := true }),
   ("Platelets", { min := some 150, max := some 450, critical := some 100, enabled := true }),
   ("MAP", { min := some 70, max := some 100, critical := some 65, enabled := true })]

/-- Severity test used when the report code filters violations
(`v.severity === 'critical'`). -/
def isCritical (v : Violation) : Bool :=
  match v.severity with
  | .critical => true
  | .warning => false

/-- JS truthiness of a possibly-undefined number, as used by the `!x` and
implicit-boolean tests in the report generators: `undefined` and `0` are
falsy, every other number is truthy (`NaN` does not arise here). -/
def jsFalsy (v : Option ℚ) : Bool :=
  match v with
  | none => true
  | some q => decide (q = 0)

/-- `generateClinicalFindings(patientData, violations)`. -/
def generateClinicalFindings (pd : PatientData) (violations : List Violation) :
    List String :=
  (match getVital pd Vitals.HR with
   | some hr => if hr > 100 then
       ["Tachycardia present (HR: " ++ toString hr ++ " bpm)"] else []
   | none => []) ++
  (match getVital pd Vitals.Temp with
   | some t => if t > 38.3 then
       ["Hyperthermia detected (" ++ toString t ++ "°C)"] else []
   | none => []) ++
  (match getVital pd Vitals.Temp with
   | some t => if t < 36 then
       ["Hypothermia detected (" ++ toString t ++ "°C)"] else []
   | none => []) ++
  (match getVital pd Vitals.SBP with
   | some v => if v < 90 then
       ["Hypotension present (SBP: " ++ toString v ++ " mmHg)"] else []
   | none => []) ++
  (match getVital pd Vitals.Resp with
   | some v => if v > 22 then
       ["Tachypnea observed (" ++ toString v ++ "/min)"] else []
   | none => []) ++
  (match getLab pd Labs.Lactate with
   | some v => if v > 2.5 then
       ["Elevated lactate levels (" ++ toString v ++ " mmol/L)"] else []
   | none => []) ++
  (match getLab pd Labs.WBC with
   | some v => if v > 12 then
       ["Leukocytosis present (WBC: " ++ toString v ++ " K/μL)"] else []
   | none => []) ++
  (match getLab pd Labs.WBC with
   | some v => if v < 4 then
       ["Leukopenia detected (WBC: " ++ toString v ++ " K/μL)"] else []
   | none => []) ++
  (match getLab pd Labs.Platelets with
   | some v => if v < 150 then
       ["Thrombocytopenia observed (" ++ toString v ++ " K/μL)"] else []
   | none => []) ++
  (violations.filter isCritical).map (fun v =>
    "CRITICAL: " ++ v.parameter ++ " at " ++ toString v.value ++
      " (threshold: " ++ toString v.threshold ++ ")")

/-- `generateRecommendations(prediction, violations, patientData)`
(the `patientData` parameter is never read by the method body). -/
def generateRecommendations (prediction : Prediction) (violations : List Violation)
    (_patientData : PatientData) : List String :=
  (if prediction.riskLevel = .UNCERTAIN then
    ["⚠️ UNCERTAINTY DETECTED: Insufficient data for confident diagnosis",
     "🔍 Obtain additional vital signs and laboratory values",
     "👨‍⚕️ Consider clinical assessment by senior physician",
     "📊 Implement enhanced monitoring protocols"]
   else if prediction.riskLevel = .CRITICAL then
    ["🚨 CRITICAL: Initiate sepsis bundle protocol IMMEDIATELY",
     "💊 Administer broad-spectrum antibiotics within 1 hour",
     "🩸 Obtain blood cultures before antibiotic administration",
     "💧 Begin aggressive fluid resuscitation (30ml/kg crystalloid)",
     "🏥 Consider ICU transfer"]
   else if prediction.riskLevel = .HIGH then
    ["⚠️ HIGH RISK: Close monitoring required",
     "🧪 Order additional labs: procalcitonin, CRP, blood cultures",
     "💧 Consider fluid challenge if hypotensive",
     "👨‍⚕️ Infectious disease consultation recommended"]
   else []) ++
  violations.flatMap (fun v =>
    (if v.parameter = "Lactate" ∧ v.severity = .critical then
       ["🔬 Severe hyperlactatemia - investigate shock etiology"] else []) ++
    (if v.parameter = "MAP" ∧ v.severity = .critical then
       ["💉 Consider vasopressor support"] else []))

/-- `identifyUncertaintyFactors(patientData)`. -/
def identifyUncertaintyFactors (pd : PatientData) : List String :=
  (if jsFalsy (getLab pd Labs.Lactate) then ["Missing lactate levels"] else []) ++
  (if jsFalsy (getLab pd Labs.WBC) then ["Missing white blood cell count"] else []) ++
  (if jsFalsy (getVital pd Vitals.HR) then ["Missing heart rate data"] else []) ++
  (if jsFalsy (getVital pd Vitals.Temp) then ["Missing temperature readings"] else []) ++
  (if jsGt (getLab pd Labs.Lactate) 2.0 ∧ jsLt (getLab pd Labs.Lactate) 2.5 then
     ["Borderline lactate elevation"] else []) ++
  (if jsGt (getVital pd Vitals.HR) 85 ∧ jsLt (getVital pd Vitals.HR) 95 then
     ["Borderline tachycardia"] else [])

/-- `generateTreatmentPlan(prediction, uncertaintyFactors)`
(the `uncertaintyFactors` parameter is never read by the method body). -/
def generateTreatmentPlan (prediction : Prediction)
    (_uncertaintyFactors : List String) : List String :=
  if prediction.riskLevel = .UNCERTAIN then
    ["Conservative monitoring approach due to diagnostic uncertainty",
     "Avoid aggressive interventions until more data available",
     "Consider empirical treatment only if clinical deterioration",
     "Document uncertainty in medical record"]
  else if prediction.riskLevel = .CRITICAL then
    ["Immediate sepsis protocol activation",
     "Antibiotic therapy within 1 hour",
     "Fluid resuscitation 30ml/kg over 3 hours",
     "Vasopressor support if MAP < 65 mmHg after fluids"]
  else if prediction.riskLevel = .HIGH then
    ["Enhanced monitoring every 2 hours",
     "Prepare for potential sepsis protocol",
     "Consider empirical antibiotics if clinical worsening"]
  else []

/-- `generateFollowUpActions(prediction, uncertaintyFactors)`
(the `prediction` parameter is never read by the method body). -/
def generateFollowUpActions (_prediction : Prediction)
    (uncertaintyFactors : List String) : List String :=
  (if uncertaintyFactors.length > 0 then
    ["Reassess in 2-4 hours with additional data",
     "Obtain missing laboratory values"]
   else []) ++
  ["Monitor vital signs hourly",
   "Document clinical response to interventions",
   "Reassess sepsis risk every 6 hours"]

/-- The trained-model object stored in `this.model` after training.  Only
the fields a claim can observe are kept; `features`/`timestamp` are never
read by the embedded methods. -/
structure TrainedModel where
  trained : Bool
  patientCount : ℕ
  sepsisPrevalence : ℚ
deriving DecidableEq, Repr

/-- Instance state of `EnhancedSepsisMLModel`:
`model` (null until trained), `isTraining`, `trainingProgress`,
`thresholds` (a JS object = insertion-ordered key/value list). -/
structure MLState where
  model : Option TrainedModel
  isTraining : Bool
  trainingProgress : ℚ
  thresholds : List (String × ThresholdConfig)
deriving DecidableEq, Repr

/-- State right after the constructor ran: no model, default thresholds. -/
def initialState : MLState :=
  { model := none, isTraining := false, trainingProgress := 0,
    thresholds := defaultThresholds }

/-- `PatientAnalysisReport` (the `timestamp: Date` field is not modelled). -/
structure AnalysisReport where
  patientId : String
  overallRisk : RiskLevel
  confidence : ℚ
  riskProbability : ℚ
  clinicalFindings : List String
  recommendations : List String
  thresholdViolations : List Violation
  uncertaintyFactors : List String
  treatmentPlan : List String
  followUpActions : List String
deriving DecidableEq, Repr

/-- `analyzePatient(patientData, patientId)`: throws
`'Model not trained yet'` when `this.model` is null, otherwise assembles the
report from the scorer, the threshold checker and the text generators. -/
def analyzePatient (st : MLState) (pd : PatientData) (patientId : String)
    (rand : ℚ) : Except String AnalysisReport :=
  match st.model with
  | none => .error "Model not trained yet"
  | some _ =>
    let prediction := predictWithUncertainty pd rand
    let thresholdViolations := checkThresholds st.thresholds pd
    let clinicalFindings := generateClinicalFindings pd thresholdViolations
    let recommendations := generateRecommendations prediction thresholdViolations pd
    let uncertaintyFactors := identifyUncertaintyFactors pd
    let treatmentPlan := generateTreatmentPlan prediction uncertaintyFactors
    .ok
      { patientId := patientId
        overallRisk := prediction.riskLevel
        confidence := prediction.confidence
        riskProbability := prediction.probability
        clinicalFindings := clinicalFindings
        recommendations := recommendations
        thresholdViolations := thresholdViolations
        uncertaintyFactors := uncertaintyFactors
        treatmentPlan := treatmentPlan
        followUpActions := generateFollowUpActions prediction uncertaintyFactors }

/-- A call of the method `predictWithUncertainty` on an instance: the method
reads none of the mutable instance fields and writes none of them, so the
instance state is returned unchanged alongside the result. -/
def predictCall (st : MLState) (pd : PatientData) (rand : ℚ) :
    Prediction × MLState :=
  (predictWithUncertainty pd rand, st)

/-- `updateThresholds(newThresholds)`: JS object spread
`{...this.thresholds, ...newThresholds}` — existing keys keep their position
and take the new value when overridden; keys only in `newThresholds` are
appended in their own order. -/
def spreadMerge (a b : List (String × ThresholdConfig)) :
    List (String × ThresholdConfig) :=
  (a.map (fun kv =>
    (kv.1, match List.lookup kv.1 b with
           | some w => w
           | none => kv.2))) ++
  b.filter (fun kv => (List.lookup kv.1 a).isNone)

/-- `updateThresholds(newThresholds)` on the instance state. -/
def updateThresholds (st : MLState) (newThresholds : List (String × ThresholdConfig)) :
    MLState :=
  { st with thresholds := spreadMerge st.thresholds newThresholds }

/-- `getThresholds()`. -/
def getThresholds (st : MLState) : List (String × ThresholdConfig) :=
  st.thresholds

/-- A raw cell value of an ingested tabular row (`DatasetRow` values are
`string | number`): a finite number, a string, or `NaN` (the CSV path keeps
all cells as strings; the workbook path yields numbers, strings, or `''`,
and the `SepsisLabel` pre-coercion can produce `NaN`). -/
inductive JSVal where
  | num (q : ℚ)
  | str (s : String)
  | nan
deriving DecidableEq, Repr

/-- JS truthiness of a possibly-absent cell: `undefined`, `0`, `''` and
`NaN` are falsy. -/
def truthy (v : Option JSVal) : Bool :=
  match v with
  | none => false
  | some (.num q) => decide (q ≠ 0)
  | some (.str s) => decide (s ≠ "")
  | some .nan => false

/-- JS short-circuit `a || b`. -/
def jsOr (a b : Option JSVal) : Option JSVal :=
  if truthy a then a else b

/-- JS `String(v)` (number rendering is modelled by the rational's
`toString`; no claim depends on numeric formatting). -/
def jsToString (v : Option JSVal) : String :=
  match v with
  | none => "undefined"
  | some (.num q) => toString q
  | some (.str s) => s
  | some .nan => "NaN"

/-- Digit-list value, most significant first. -/
def digitsVal (l : List Char) : ℕ :=
  l.foldl (fun acc c => acc * 10 + (c.toNat - 48)) 0

/-- JS `Number(s)` on a string, returning `none` for `NaN`: trimmed empty
string is `0`; an optional sign followed by decimal digits with at most one
decimal point parses to its value; anything else is `NaN`.  (Exponent and
hex numeral forms are not modelled; no dataset cell uses them.) -/
def strToNum (s : String) : Option ℚ :=
  let t := s.trim
  if t = "" then some 0
  else
    let sgn : ℚ := if t.startsWith "-" then -1 else 1
    let u := if t.startsWith "-" then t.drop 1
             else if t.startsWith "+" then t.drop 1 else t
    let cs := u.toList
    if !cs.isEmpty && cs.all (fun c => c.isDigit || c == '.') &&
       decide ((cs.filter (fun c => c == '.')).length ≤ 1) &&
       cs.any (fun c => c.isDigit) then
      let ip := cs.takeWhile (fun c => c != '.')
      let fp := (cs.dropWhile (fun c => c != '.')).drop 1
      some (sgn * ((digitsVal ip : ℚ) + (digitsVal fp : ℚ) / (10 ^ fp.length)))
    else none

/-- JS `Number(v)` on a possibly-absent cell; `none` in the result models
`NaN` (`Number(undefined)` is `NaN`). -/
def jsNumber (v : Option JSVal) : Option ℚ :=
  match v with
  | none => none
  | some (.num q) => some q
  | some (.str s) => strToNum s
  | some .nan => none

/-- An ingested tabular row: a JS object, i.e. an insertion-ordered list of
column-name/value pairs. -/
def Row : Type := List (String × JSVal)

/-- Column access `row.name`. -/
def rowGet (row : Row) (name : String) : Option JSVal :=
  List.lookup name row

/-- The normalizer's numeric-field coercion `Number(row[name] || 0)`.
The result is a JS number that may be `NaN` (modelled by `none`). -/
def normField (row : Row) (name : String) : Option ℚ :=
  jsNumber (jsOr (rowGet row name) (some (.num 0)))

/-- Vitals of the normalized `PatientData` built by the App: every field is
assigned a JS number (possibly `NaN`, modelled by `none`), never absent. -/
structure NormVitals where
  HR : Option ℚ
  O2Sat : Option ℚ
  Temp : Option ℚ
  SBP : Option ℚ
  MAP : Option ℚ
  DBP : Option ℚ
  Resp : Option ℚ
  EtCO2 : Option ℚ
deriving DecidableEq, Repr

/-- Labs of the normalized `PatientData` built by the App. -/
structure NormLabs where
  BaseExcess : Option ℚ
  HCO3 : Option ℚ
  FiO2 : Option ℚ
  pH : Option ℚ
  PaCO2 : Option ℚ
  SaO2 : Option ℚ
  AST : Option ℚ
  BUN : Option ℚ
  Alkalinephos : Option ℚ
  Calcium : Option ℚ
  Chloride : Option ℚ
  Creatinine : Option ℚ
  Bilirubin_direct : Option ℚ
  Glucose : Option ℚ
  Lactate : Option ℚ
  Magnesium : Option ℚ
  Phosphate : Option ℚ
  Potassium : Option ℚ
  Bilirubin_total : Option ℚ
  TroponinI : Option ℚ
  Hct : Option ℚ
  Hgb : Option ℚ
  PTT : Option ℚ
  WBC : Option ℚ
  Fibrinogen : Option ℚ
  Platelets : Option ℚ
deriving DecidableEq, Repr

/-- The normalized patient record built per row by the App's
timeline-building effect. -/
structure NormPatient where
  Patient_ID : String
  Hour : Option ℚ
  Age : Option ℚ
  Gender : String
  Unit1 : Bool
  Unit2 : Bool
  HospAdmTime : Option ℚ
  ICULOS : Option ℚ
  SepsisLabel : Option ℚ
  vitals : NormVitals
  labs : NormLabs
deriving DecidableEq, Repr

/-- One iteration of the App's row loop:
`String(row.Patient_ID || row.PatientID || row.patient_id || '')` selects
the id; an empty id skips the row (`return`), otherwise the fixed-schema
record is built with every numeric field coerced via `Number(... || 0)`. -/
def normalizeRow (row : Row) : Option NormPatient :=
  let id := jsToString (jsOr (jsOr (jsOr (rowGet row "Patient_ID")
    (rowGet row "PatientID")) (rowGet row "patient_id")) (some (.str "")))
  if id = "" then none
  else some
    { Patient_ID := id
      Hour := jsNumber (jsOr (jsOr (rowGet row "Hour") (rowGet row "Time"))
        (some (.num 1)))
      Age := normField row "Age"
      Gender := if rowGet row "Gender" = some (.str "M") ∨
                   rowGet row "Gender" = some (.str "F")
                then jsToString (rowGet row "Gender") else "M"
      Unit1 := truthy (rowGet row "Unit1")
      Unit2 := truthy (rowGet row "Unit2")
      HospAdmTime := normField row "HospAdmTime"
      ICULOS := normField row "ICULOS"
      SepsisLabel := jsNumber (jsOr (jsOr (rowGet row "SepsisLabel")
        (rowGet row "sepsislabel")) (some (.num 0)))
      vitals :=
        { HR := normField row "HR"
          O2Sat := normField row "O2Sat"
          Temp := normField row "Temp"
          SBP := normField row "SBP"
          MAP := normField row "MAP"
          DBP := normField row "DBP"
          Resp := normField row "Resp"
          EtCO2 := normField row "EtCO2" }
      labs :=
        { BaseExcess := normField row "BaseExcess"
          HCO3 := normField row "HCO3"
          FiO2 := normField row "FiO2"
          pH := normField row "pH"
          PaCO2 := normField row "PaCO2"
          SaO2 := normField row "SaO2"
          AST := normField row "AST"
          BUN := normField row "BUN"
          Alkalinephos := normField row "Alkalinephos"
          Calcium := normField row "Calcium"
          Chloride := normField row "Chloride"
          Creatinine := normField row "Creatinine"
          Bilirubin_direct := normField row "Bilirubin_direct"
          Glucose := normField row "Glucose"
          Lactate := normField row "Lactate"
          Magnesium := normField row "Magnesium"
          Phosphate := normField row "Phosphate"
          Potassium := normField row "Potassium"
          Bilirubin_total := normField row "Bilirubin_total"
          TroponinI := normField row "TroponinI"
          Hct := normField row "Hct"
          Hgb := normField row "Hgb"
          PTT := normField row "PTT"
          WBC := normField row "WBC"
          Fibrinogen := normField row "Fibrinogen"
          Platelets := normField row "Platelets" } }

/-- A record with every vital and lab absent (`vitals`/`labs` undefined). -/
def emptyPatient : PatientData := {}

/-- A record whose only readings are HR = 130 and Temp = 39. -/
def hrTempPatient : PatientData :=
  { vitals := some { HR := some 130, Temp := some 39 } }

/-- A record with Temp = 38.5 and Resp = 22 (raw risk 0.18 + 0.12 = 0.30,
full completeness on the checked fields). -/
def boundaryPatient : PatientData :=
  { vitals := some { Temp := some 38.5, Resp := some 22 } }

/-- A record whose only reading is SBP = 70. -/
def sbp70Patient : PatientData := { vitals := some { SBP := some 70 } }

/-- A record whose only reading is SBP = 200. -/
def sbp200Patient : PatientData := { vitals := some { SBP := some 200 } }

/-- Success test on `analyzePatient` results (did the call not throw). -/
def exceptOk (e : Except String AnalysisReport) : Bool :=
  match e with
  | .ok _ => true
  | .error _ => false

/-- An instance state whose model has been trained. -/
def trainedState : MLState :=
  { initialState with
    model := some { trained := true, patientCount := 1, sepsisPrevalence := 0 } }

/-- A row carrying the patient id only under the `PatientID` spelling. -/
def rowPT007 : Row := [("PatientID", JSVal.str "PT-007")]

/-- A row with a patient id and an unparseable `HR` cell. -/
def rowBadHR : Row := [("Patient_ID", JSVal.str "P1"), ("HR", JSVal.str "abc")]

/-- The normalized HR field of a normalizer result. -/
def normalizedHR (o : Option NormPatient) : Option (Option ℚ) :=
  o.map (fun p => p.vitals.HR)

/-- The patient id of a normalizer result. -/
def patientIdOf (o : Option NormPatient) : Option String :=
  o.map NormPatient.Patient_ID

/-- Claim C1: for every patient record (and every drawn random value),
`predictWithUncertainty` returns a value whose probability lies in `[0,1]`
and whose confidence lies in `[0,1]`. -/
theorem predict_in_unit_interval (pd : PatientData) (rand : ℚ) :
    0 ≤ (predictWithUncertainty pd rand).probability ∧
    (predictWithUncertainty pd rand).probability ≤ 1 ∧
    0 ≤ (predictWithUncertainty pd rand).confidence ∧
    (predictWithUncertainty pd rand).confidence ≤ 1 := by
  refine ⟨?_, ?_, ?_, ?_⟩
  · show (0 : ℚ) ≤ finalRiskScore pd rand
    unfold finalRiskScore
    exact le_max_left _ _
  · show finalRiskScore pd rand ≤ 1
    unfold finalRiskScore
    exact max_le (by norm_num) (min_le_left _ _)
  · show (0 : ℚ) ≤ finalConfidence pd
    unfold finalConfidence
    exact le_trans (by norm_num) (le_max_left (0.2 : ℚ) _)
  · show finalConfidence pd ≤ 1
    unfold finalConfidence
    exact max_le (by norm_num) (le_trans (min_le_left _ _) (by norm_num))

/-- Claim C3: a data-completeness ratio below 0.4 forces the UNCERTAIN
classification no matter how large the risk score is; a record with all
vitals and labs absent has ratio exactly 0 (the `totalChecks = 0` branch,
no division error) and classifies UNCERTAIN for every random draw. -/
theorem low_completeness_forces_uncertain :
    (∀ (pd : PatientData) (rand : ℚ), completenessRatio pd < 0.4 →
      (predictWithUncertainty pd rand).riskLevel = .UNCERTAIN) ∧
    completenessRatio emptyPatient = 0 ∧
    (∀ rand : ℚ, (predictWithUncertainty emptyPatient rand).riskLevel = .UNCERTAIN) := by
  have h1 : ∀ (pd : PatientData) (rand : ℚ), completenessRatio pd < 0.4 →
      (predictWithUncertainty pd rand).riskLevel = .UNCERTAIN := by
    intro pd rand h
    show classify (finalConfidence pd) (completenessRatio pd) (finalRiskScore pd rand) = .UNCERTAIN
    unfold classify
    rw [if_pos (Or.inr h)]
  exact ⟨h1, by with_unfolding_all decide, fun rand => h1 emptyPatient rand (by with_unfolding_all decide)⟩

/-- Claim C3 witness: the all-absent record concretely has ratio `0 < 0.4`
and is classified UNCERTAIN. -/
theorem low_completeness_forces_uncertain_witness :
    completenessRatio emptyPatient < 0.4 ∧
    (predictWithUncertainty emptyPatient 0.5).riskLevel = .UNCERTAIN :=
  ⟨by with_unfolding_all decide,
   low_completeness_forces_uncertain.1 emptyPatient 0.5 (by with_unfolding_all decide)⟩

/-- Claim C6: `checkThresholds` reports in the config's parameter iteration
order and does not deduplicate: HR = 130 (critical 120, max 100) appears
both as a critical and as a warning violation, followed by the Temp = 39
pair in config order. -/
theorem checkThresholds_order_no_dedup :
    checkThresholds defaultThresholds hrTempPatient =
      [{ parameter := "HR", value := 130, threshold := 120, severity := .critical },
       { parameter := "HR", value := 130, threshold := 100, severity := .warning },
       { parameter := "Temp", value := 39, threshold := 38.5, severity := .critical },
       { parameter := "Temp", value := 39, threshold := 37.2, severity := .warning }] := by
  with_unfolding_all decide

/-- Claim C9: calling the scorer twice in succession on the identical record
with the random perturbation value held fixed yields the identical risk
level and probability — the method reads and writes no mutable instance
state, so the second call starts from an unchanged instance. -/
theorem scorer_call_twice_deterministic (st : MLState) (pd : PatientData) (rand : ℚ) :
    ((predictCall (predictCall st pd rand).2 pd rand).1).riskLevel =
      ((predictCall st pd rand).1).riskLevel ∧
    ((predictCall (predictCall st pd rand).2 pd rand).1).probability =
      ((predictCall st pd rand).1).probability ∧
    (predictCall st pd rand).2 = st :=
  ⟨rfl, rfl, rfl⟩

/-- Claim C2: when the record is not classified UNCERTAIN (confidence at
least 0.5 and completeness ratio at least 0.4), a final risk score of
exactly 0.30 classifies MODERATE and one of 0.2999 classifies LOW, by the
ordered strict comparisons against 0.30, 0.55, 0.75. -/
theorem risk_score_boundary (pd : PatientData) (rand : ℚ)
    (hc : 0.5 ≤ finalConfidence pd) (hr : 0.4 ≤ completenessRatio pd) :
    (finalRiskScore pd rand = 0.30 →
      (predictWithUncertainty pd rand).riskLevel = .MODERATE) ∧
    (finalRiskScore pd rand = 0.2999 →
      (predictWithUncertainty pd rand).riskLevel = .LOW) := by
  have hcond : ¬ (finalConfidence pd < 0.5 ∨ completenessRatio pd < 0.4) := by
    push_neg
    exact ⟨hc, hr⟩
  constructor
  · intro h
    show classify (finalConfidence pd) (completenessRatio pd)
      (finalRiskScore pd rand) = .MODERATE
    unfold classify
    rw [if_neg hcond, h]
    norm_num
  · intro h
    show classify (finalConfidence pd) (completenessRatio pd)
      (finalRiskScore pd rand) = .LOW
    unfold classify
    rw [if_neg hcond, h]
    norm_num

set_option maxRecDepth 100000 in
/-- Claim C2 witness: `boundaryPatient` with the random draw at 0.5 hits a
final risk score of exactly 0.30 with confidence 0.654 and completeness 1,
and is classified MODERATE. -/
theorem risk_score_boundary_witness :
    0.5 ≤ finalConfidence boundaryPatient ∧
    0.4 ≤ completenessRatio boundaryPatient ∧
    finalRiskScore boundaryPatient 0.5 = 0.30 ∧
    (predictWithUncertainty boundaryPatient 0.5).riskLevel = .MODERATE :=
  ⟨by with_unfolding_all decide, by with_unfolding_all decide,
   by with_unfolding_all decide,
   (risk_score_boundary boundaryPatient 0.5 (by with_unfolding_all decide)
     (by with_unfolding_all decide)).1 (by with_unfolding_all decide)⟩

/-- The min/max range checks only ever produce warning-severity entries. -/
theorem rangeViolations_no_critical (param : String) (value : ℚ)
    (config : ThresholdConfig) :
    (rangeViolations param value config).filter isCritical = [] := by
  unfold rangeViolations
  rcases config with ⟨mn, mx, cr, en⟩
  rcases mn with _ | m <;> rcases mx with _ | M <;>
    simp only [] <;> (try split_ifs) <;> simp [isCritical]

/-- Every entry of the critical check is critical-severity. -/
theorem criticalViolations_all_critical (param : String) (value : ℚ)
    (config : ThresholdConfig) :
    (criticalViolations param value config).filter isCritical =
      criticalViolations param value config := by
  unfold criticalViolations
  cases h : config.critical <;> simp only [] <;> (try split_ifs) <;> simp [isCritical]

/-- Claim C4: for an enabled parameter with a critical bound whose value is
present, the critical-severity output of the checker is exactly one entry
when the value is strictly below the bound (for SBP, MAP, O2Sat, Platelets)
resp. strictly above it (for every other parameter), and empty otherwise;
concretely, SBP = 70 against critical 80 yields the critical violation and
SBP = 200 yields no critical entry, only the max warning. -/
theorem critical_direction (pd : PatientData) (param : String)
    (config : ThresholdConfig) (value crit : ℚ)
    (hen : config.enabled = true) (hcrit : config.critical = some crit)
    (hval : lookupValue pd param = some value) :
    ((paramViolations pd param config).filter isCritical =
      if lowDirection param then
        (if value < crit then
          [{ parameter := param, value := value, threshold := crit,
             severity := .critical }]
         else [])
      else
        (if value > crit then
          [{ parameter := param, value := value, threshold := crit,
             severity := .critical }]
         else [])) ∧
    ({ parameter := "SBP", value := 70, threshold := 80,
       severity := .critical } : Violation) ∈
        checkThresholds defaultThresholds sbp70Patient ∧
    (checkThresholds defaultThresholds sbp200Patient).filter isCritical = [] ∧
    checkThresholds defaultThresholds sbp200Patient =
      [{ parameter := "SBP", value := 200, threshold := 140,
         severity := .warning }] := by
  refine ⟨?_, by with_unfolding_all decide, by with_unfolding_all decide,
    by with_unfolding_all decide⟩
  unfold paramViolations
  rw [hen]
  simp only [if_neg (by simp : ¬ (true = false)), hval]
  rw [List.filter_append, rangeViolations_no_critical,
    criticalViolations_all_critical, List.append_nil]
  unfold criticalViolations
  rw [hcrit]
  by_cases hl : lowDirection param
  · by_cases hv : value < crit
    · simp [hl, hv]
    · simp [hl, hv]
  · by_cases hv : value > crit
    · simp [hl, hv]
    · simp [hl, hv]

/-- Claim C4 witness: the characterization applied to SBP = 70 against the
default SBP config (critical 80) yields exactly the critical violation. -/
theorem critical_direction_witness :
    (paramViolations sbp70Patient "SBP"
      { min := some 90, max := some 140, critical := some 80, enabled := true }).filter
        isCritical =
      [{ parameter := "SBP", value := 70, threshold := 80,
         severity := .critical }] := by
  have h := (critical_direction sbp70Patient "SBP"
    { min := some 90, max := some 140, critical := some 80, enabled := true }
    70 80 rfl rfl (by with_unfolding_all decide)).1
  rw [h]
  with_unfolding_all decide

/-- Claim C5: `analyzePatient` throws exactly when it is called before the
model has been trained (`this.model` still null); with a trained model it
returns a report without throwing, and no other condition makes it fail. -/
theorem analyzePatient_error_iff_untrained (st : MLState) (pd : PatientData)
    (patientId : String) (rand : ℚ) :
    (st.model = none →
      analyzePatient st pd patientId rand = .error "Model not trained yet") ∧
    (∀ m, st.model = some m →
      exceptOk (analyzePatient st pd patientId rand) = true) := by
  constructor
  · intro h
    unfold analyzePatient
    rw [h]
  · intro m h
    unfold analyzePatient
    rw [h]
    rfl

/-- Claim C5 witness: on the untrained initial state the call throws the
exact message; on a trained state it succeeds. -/
theorem analyzePatient_error_iff_untrained_witness :
    analyzePatient initialState emptyPatient "P1" 0.5 =
      .error "Model not trained yet" ∧
    exceptOk (analyzePatient trainedState emptyPatient "P1" 0.5) = true :=
  ⟨(analyzePatient_error_iff_untrained initialState emptyPatient "P1" 0.5).1 rfl,
   (analyzePatient_error_iff_untrained trainedState emptyPatient "P1" 0.5).2 _ rfl⟩

/-- Claim C7: a row carrying a non-empty patient-id string under exactly one
of the three accepted column spellings normalizes to a record whose
`Patient_ID` is that string unchanged. -/
theorem normalize_preserves_patient_id (row : Row) (s : String) (hs : s ≠ "")
    (h : (rowGet row "Patient_ID" = some (.str s) ∧ rowGet row "PatientID" = none ∧
            rowGet row "patient_id" = none) ∨
         (rowGet row "Patient_ID" = none ∧ rowGet row "PatientID" = some (.str s) ∧
            rowGet row "patient_id" = none) ∨
         (rowGet row "Patient_ID" = none ∧ rowGet row "PatientID" = none ∧
            rowGet row "patient_id" = some (.str s))) :
    patientIdOf (normalizeRow row) = some s := by
  have hid : jsToString (jsOr (jsOr (jsOr (rowGet row "Patient_ID")
      (rowGet row "PatientID")) (rowGet row "patient_id")) (some (.str ""))) = s := by
    rcases h with ⟨h1, h2, h3⟩ | ⟨h1, h2, h3⟩ | ⟨h1, h2, h3⟩ <;>
      rw [h1, h2, h3] <;> simp [jsOr, truthy, hs, jsToString]
  simp only [normalizeRow]
  rw [hid, if_neg hs]
  simp [patientIdOf]

/-- Claim C7 witness: a row with column `PatientID = "PT-007"` (and no other
id spelling) normalizes to `patientId = "PT-007"`. -/
theorem normalize_preserves_patient_id_witness :
    patientIdOf (normalizeRow rowPT007) = some "PT-007" :=
  normalize_preserves_patient_id rowPT007 "PT-007" (by decide)
    (Or.inr (Or.inl ⟨by with_unfolding_all decide, by with_unfolding_all decide,
      by with_unfolding_all decide⟩))

/-- Claim C8 counterexample: a present but unparseable numeric cell is NOT
coerced to 0 — `Number("abc" || 0)` is `NaN` (modelled `none`), so the
normalized HR of `rowBadHR` is `NaN`, refuting "absent or unparseable
fields are coerced to the value 0". -/
theorem normalize_unparseable_not_zero :
    normalizedHR (normalizeRow rowBadHR) = some none ∧
    normalizedHR (normalizeRow rowBadHR) ≠ some (some 0) := by
  constructor
  · with_unfolding_all decide
  · with_unfolding_all decide

/-- Claim C8 (amended): every numeric vital/lab field whose column is absent
from the row is coerced to the value 0 (never left absent); a present but
unparseable cell instead yields `NaN`. -/
theorem normalize_absent_field_zero (row : Row) (name : String)
    (h : rowGet row name = none) : normField row name = some 0 := by
  unfold normField
  rw [h]
  rfl

/-- Claim C8 witness: on the empty row every column is absent and e.g. the
HR coercion yields 0. -/
theorem normalize_absent_field_zero_witness :
    normField ([] : Row) "HR" = some 0 :=
  normalize_absent_field_zero ([] : Row) "HR" rfl

/-- Key lookup distributes over list append (first hit wins). -/
theorem lookup_append (p : String) (l1 l2 : List (String × ThresholdConfig)) :
    List.lookup p (l1 ++ l2) =
      match List.lookup p l1 with
      | some w => some w
      | none => List.lookup p l2 := by
  induction l1 with
  | nil => simp
  | cons kv t ih =>
    rcases kv with ⟨k, v⟩
    by_cases h : p = k
    · subst h
      simp [List.lookup]
    · simp only [List.cons_append, List.lookup, beq_false_of_ne h]
      exact ih

/-- Lookup in the overridden copy of the original keys: a key present in
the original list maps to the new value when overridden, else the old one. -/
theorem lookup_override (p : String) (a b : List (String × ThresholdConfig)) :
    List.lookup p (a.map (fun kv =>
      (kv.1, match List.lookup kv.1 b with
             | some w => w
             | none => kv.2))) =
      match List.lookup p a with
      | none => none
      | some v => match List.lookup p b with
                  | some w => some w
                  | none => some v := by
  induction a with
  | nil => simp
  | cons kv t ih =>
    rcases kv with ⟨k, v⟩
    by_cases h : p = k
    · subst h
      simp only [List.map_cons, List.lookup, beq_self_eq_true]
      cases List.lookup p b <;> rfl
    · simp only [List.map_cons, List.lookup, beq_false_of_ne h]
      exact ih

/-- Lookup of a key absent from `a` passes through the filter that keeps
only the `b`-entries whose key is absent from `a`. -/
theorem lookup_filter_new (p : String) (a b : List (String × ThresholdConfig))
    (h : List.lookup p a = none) :
    List.lookup p (b.filter (fun kv => (List.lookup kv.1 a).isNone)) =
      List.lookup p b := by
  induction b with
  | nil => simp
  | cons kv t ih =>
    rcases kv with ⟨k, v⟩
    by_cases hk : p = k
    · subst hk
      simp only [List.filter_cons, h, Option.isNone_none, if_pos rfl]
      simp [List.lookup]
    · by_cases hkeep : (List.lookup k a).isNone
      · simp only [List.filter_cons, hkeep, if_pos rfl]
        simp only [List.lookup, beq_false_of_ne hk]
        exact ih
      · simp only [List.filter_cons, if_neg hkeep]
        rw [ih]
        simp [List.lookup, beq_false_of_ne hk]

/-- Lookup after the JS object spread `{...a, ...b}`: the `b` entry wins
when present, else the `a` entry survives. -/
theorem lookup_spreadMerge (a b : List (String × ThresholdConfig)) (p : String) :
    List.lookup p (spreadMerge a b) =
      match List.lookup p b with
      | some w => some w
      | none => List.lookup p a := by
  unfold spreadMerge
  rw [lookup_append, lookup_override]
  cases ha : List.lookup p a with
  | some v => cases List.lookup p b <;> rfl
  | none =>
    simp only []
    rw [lookup_filter_new p a b ha]
    cases List.lookup p b <;> rfl

/-- Claim C10: `updateThresholds(newThresholds)` leaves the stored config of
every parameter not named in `newThresholds` unchanged (as observed through
`getThresholds`), and replaces exactly the named parameters' entries. -/
theorem updateThresholds_frame (st : MLState)
    (newThresholds : List (String × ThresholdConfig)) (p : String) :
    (List.lookup p newThresholds = none →
      List.lookup p (getThresholds (updateThresholds st newThresholds)) =
        List.lookup p (getThresholds st)) ∧
    (∀ c, List.lookup p newThresholds = some c →
      List.lookup p (getThresholds (updateThresholds st newThresholds)) = some c) := by
  constructor
  · intro h
    show List.lookup p (spreadMerge st.thresholds newThresholds) = _
    rw [lookup_spreadMerge, h]
    rfl
  · intro c h
    show List.lookup p (spreadMerge st.thresholds newThresholds) = some c
    rw [lookup_spreadMerge, h]

/-- Claim C10 witness: overriding only `HR` on the default settings leaves
the stored `Temp` entry untouched and installs the new `HR` entry. -/
theorem updateThresholds_frame_witness :
    List.lookup "Temp" (getThresholds (updateThresholds initialState
      [("HR", { min := some 50, max := some 110, critical := some 130,
                enabled := true })])) =
      List.lookup "Temp" (getThresholds initialState) ∧
    List.lookup "HR" (getThresholds (updateThresholds initialState
      [("HR", { min := some 50, max := some 110, critical := some 130,
                enabled := true })])) =
      some { min := some 50, max := some 110, critical := some 130,
             enabled := true } :=
  ⟨(updateThresholds_frame initialState
      [("HR", { min := some 50, max := some 110, critical := some 130,
                enabled := true })] "Temp").1 (by with_unfolding_all decide),
   (updateThresholds_frame initialState
      [("HR", { min := some 50, max := some 110, critical := some 130,
                enabled := true })] "HR").2 _ (by with_unfolding_all decide)⟩
